import Mathlib

/-!
Verification of the geospatial filtering pipeline of `location_extractor.py`
(class `LocationExtractor`): coordinate validation, camera-vs-screenshot
classification, date-range filtering, distance-based deduplication, and
Street View panorama-coverage filtering.

Modelling conventions:
* Python floats are modelled as rationals; the comparisons the code performs
  (range checks against 90/180, equality with 0.0, distance thresholds) are
  exact on the values at stake.
* `_haversine_distance` computes a transcendental floating-point formula
  (sin, cos, atan2, sqrt); it is not representable as an executable Lean
  function, so every pipeline function that calls it is parameterized over a
  distance function `dist lat1 lon1 lat2 lon2`, applied exactly where the
  source calls `self._haversine_distance`.
* The network call in `_check_street_view_pano` is modelled by a lookup
  function parameter returning either a raised exception or a decoded JSON
  response; the API key is folded into that parameter.
* Python datetimes are modelled at second granularity; a timezone-aware
  datetime carries its naive clock fields plus an optional UTC offset, and
  `normalize_datetime` (which does `dt.replace(tzinfo=None)`) keeps the
  clock fields and drops the offset.
* The source reports the three skip counters and the number of records found
  via console output at the end of `extract_locations` and returns the
  record list; `ExtractResult` models the returned list together with those
  reported counters.
-/

namespace GeoMemo

/-- A calendar date, as parsed by `datetime.strptime(s, "%Y-%m-%d")`. -/
structure Date where
  year : Nat
  month : Nat
  day : Nat
deriving DecidableEq

/-- A timezone-naive datetime at second granularity. -/
structure NaiveDateTime where
  date : Date
  hour : Nat
  minute : Nat
  second : Nat
deriving DecidableEq

/-- A possibly timezone-aware datetime: naive clock fields plus an optional
UTC offset in minutes (`none` models a naive datetime). -/
structure AwareDateTime where
  naive : NaiveDateTime
  tzoffsetMinutes : Option Int
deriving DecidableEq

/-- Strict lexicographic order on calendar dates. -/
def dateLtB (a b : Date) : Bool :=
  if a.year ≠ b.year then decide (a.year < b.year)
  else if a.month ≠ b.month then decide (a.month < b.month)
  else if a.day ≠ b.day then decide (a.day < b.day)
  else false

/-- Strict lexicographic order on naive datetimes, as Python compares
`datetime` objects: date fields first, then the time fields. -/
def dtLtB (a b : NaiveDateTime) : Bool :=
  if dateLtB a.date b.date then true
  else if dateLtB b.date a.date then false
  else if a.hour ≠ b.hour then decide (a.hour < b.hour)
  else if a.minute ≠ b.minute then decide (a.minute < b.minute)
  else decide (a.second < b.second)

/-- The helper `normalize_datetime` from `extract_locations`: `None` stays `None`, a
timezone-aware datetime has its tzinfo removed (clock fields kept). -/
def normalize_datetime : Option AwareDateTime → Option NaiveDateTime :=
  Option.map AwareDateTime.naive

/-- Parsing `datetime.strptime(start_date, "%Y-%m-%d")`: midnight of the day. -/
def startOfDay (d : Date) : NaiveDateTime := ⟨d, 0, 0, 0⟩

/-- Parsing `datetime.strptime(end_date, "%Y-%m-%d").replace(hour=23, minute=59,
second=59)`: end of the day, for the inclusive end-date comparison. -/
def endOfDay (d : Date) : NaiveDateTime := ⟨d, 23, 59, 59⟩

/-- EXIF camera metadata of a photo (`photo.exif_info`); each field is
`none` when the attribute is missing or `None`. -/
structure ExifInfo where
  camera_make : Option String
  camera_model : Option String
deriving DecidableEq

/-- Place metadata of a photo (`photo.place`), following the attribute
probing order of the source: a place either has a `country` attribute
(whose value may still be `None`), or no `country` attribute but a `name`
attribute (`none` models a missing or non-string name), or neither. -/
inductive PlaceInfo where
  | withCountry (country : Option String)
  | nameOnly (name : Option String)
  | bare
deriving DecidableEq

/-- A raw photo record from the osxphotos library. `location` is `None` or
a `(lat, lon)` pair whose components may individually be `None`. -/
structure Photo where
  uuid : String
  original_filename : Option String
  title : Option String
  description : Option String
  location : Option (Option ℚ × Option ℚ)
  date : Option AwareDateTime
  ismovie : Bool
  favorite : Bool
  exif_info : Option ExifInfo
  place : Option PlaceInfo
deriving DecidableEq

/-- Python string truthiness for an optional string: truthy iff present and
non-empty. -/
def truthyStr : Option String → Bool
  | none => false
  | some s => decide (s ≠ "")

/-- The method `_is_valid_camera_media`: true iff the photo has EXIF info carrying a
non-empty camera make or a non-empty camera model. -/
def is_valid_camera_media (photo : Photo) : Bool :=
  match photo.exif_info with
  | some exif => truthyStr exif.camera_make || truthyStr exif.camera_model
  | none => false

/-- Python `a or b` for an optional string `a` and a default `b`. -/
def orDefault (a : Option String) (b : String) : String :=
  match a with
  | some s => if s = "" then b else s
  | none => b

/-- Splitting a list of characters at commas, modelling Python
`str.split(",")` (always returns at least one, possibly empty, part). -/
def splitCommaList : List Char → List (List Char)
  | [] => [[]]
  | c :: rest =>
    let r := splitCommaList rest
    if c = ',' then [] :: r
    else
      match r with
      | h :: t => (c :: h) :: t
      | [] => [[c]]

/-- Python `str.split(",")` on a string. -/
def splitComma (s : String) : List String :=
  (splitCommaList s.data).map String.mk

/-- Whitespace test used by Python `str.strip()`. -/
def isPySpace (c : Char) : Bool :=
  c = ' ' || c = '\t' || c = '\n' || c = '\r'

/-- Python `str.strip()`: drop leading and trailing whitespace. -/
def pyStrip (s : String) : String :=
  String.mk (((s.data.dropWhile isPySpace).reverse.dropWhile isPySpace).reverse)

/-- The region-resolution logic of `extract_locations` (lines 361-382 of
the source): prefer `place.country`; else, when the place has no country
attribute, a string `place.name` containing a comma yields the stripped
last comma-separated part; a falsy result (absent or empty) becomes
`"Unknown"`. -/
def resolve_region (place : Option PlaceInfo) : String :=
  let region : Option String :=
    match place with
    | none => none
    | some (.withCountry c) => c
    | some (.nameOnly (some nm)) =>
      if nm.data.contains ',' then
        some (((splitComma nm).map pyStrip).getLastD "")
      else none
    | some (.nameOnly none) => none
    | some .bare => none
  match region with
  | some r => if r = "" then "Unknown" else r
  | none => "Unknown"

/-- The `photo_data` dictionary appended by `extract_locations`, with the
panorama keys that `filter_street_view_panos` may later add (`none` while
absent). The `date` field models the `isoformat()` string by the datetime
value itself (empty string modelled by `none`). -/
structure LocationRecord where
  uuid : String
  filename : String
  title : String
  description : String
  latitude : Option ℚ
  longitude : Option ℚ
  date : Option AwareDateTime
  is_video : Bool
  is_favorite : Bool
  region : String
  pano_lat : Option ℚ := none
  pano_lon : Option ℚ := none
  pano_distance_m : Option ℚ := none
  pano_id : Option String := none
deriving DecidableEq

/-- The `photo_data` dictionary built for a surviving photo. -/
def mkRecord (photo : Photo) (lat lon : ℚ) : LocationRecord :=
  { uuid := photo.uuid
    filename := orDefault photo.original_filename "Unknown"
    title := orDefault photo.title (orDefault photo.original_filename "Untitled")
    description := photo.description.getD ""
    latitude := some lat
    longitude := some lon
    date := photo.date
    is_video := photo.ismovie
    is_favorite := photo.favorite
    region := resolve_region photo.place }

/-- Outcome of the per-photo body of the extraction loop: which skip branch
fired, or the record that was appended. `zeroZero` is the fall-through for a
(0.0, 0.0) coordinate pair, which the source skips without touching any
counter. -/
inductive PhotoOutcome where
  | noLocation
  | nullCoord
  | zeroZero
  | dateFiltered
  | nonCamera
  | kept (r : LocationRecord)
deriving DecidableEq

/-- The body of the extraction loop of `extract_locations` for one photo,
with the checks in source order: location presence, null coordinates,
range validation, the (0,0) guard, the date filter (comparisons on
normalized datetimes), and the camera-media filter. -/
def classifyPhoto (start_datetime end_datetime : Option NaiveDateTime)
    (photo : Photo) : PhotoOutcome :=
  match photo.location with
  | none => .noLocation
  | some (olat, olon) =>
    match olat, olon with
    | some lat, some lon =>
      if ¬(-90 ≤ lat ∧ lat ≤ 90) ∨ ¬(-180 ≤ lon ∧ lon ≤ 180) then .nullCoord
      else if lat ≠ 0 ∨ lon ≠ 0 then
        match photo.date with
        | some d =>
          if (match start_datetime with
              | some s => dtLtB d.naive s
              | none => false) then .dateFiltered
          else if (match end_datetime with
              | some e => dtLtB e d.naive
              | none => false) then .dateFiltered
          else if ¬ is_valid_camera_media photo then .nonCamera
          else .kept (mkRecord photo lat lon)
        | none =>
          if start_datetime.isSome || end_datetime.isSome then .dateFiltered
          else if ¬ is_valid_camera_media photo then .nonCamera
          else .kept (mkRecord photo lat lon)
      else .zeroZero
    | _, _ => .nullCoord

/-- The observable result of `extract_locations`: the returned record list
plus the counters the function reports (the three skip counters and the
total number of records found). -/
structure ExtractResult where
  records : List LocationRecord
  null_coord_count : Nat
  skipped_count : Nat
  date_filtered_count : Nat
  total_found : Nat
deriving DecidableEq

/-- The extraction loop over the photo list: accumulates the record list in
iteration order and the three skip counters
(records, null_coord, skipped, date_filtered). -/
def extractGo (sdt edt : Option NaiveDateTime) :
    List Photo → List LocationRecord × Nat × Nat × Nat
  | [] => ([], 0, 0, 0)
  | p :: rest =>
    let t := extractGo sdt edt rest
    match classifyPhoto sdt edt p with
    | .kept r => (r :: t.1, t.2.1, t.2.2.1, t.2.2.2)
    | .nullCoord => (t.1, t.2.1 + 1, t.2.2.1, t.2.2.2)
    | .nonCamera => (t.1, t.2.1, t.2.2.1 + 1, t.2.2.2)
    | .dateFiltered => (t.1, t.2.1, t.2.2.1, t.2.2.2 + 1)
    | .noLocation => t
    | .zeroZero => t

/-- The method `extract_locations(start_date, end_date)` over a photo list. Date
strings are modelled by their parsed `Date` values; the start date parses
to midnight, the end date is set to end of day (23:59:59); when both are
given and start is after end, the function raises
`ValueError("start_date must be before or equal to end_date")`
(the InvalidRangeError of the design), modelled as `Except.error`. -/
def extract_locations (start_date end_date : Option Date)
    (photos : List Photo) : Except String ExtractResult :=
  let start_datetime : Option NaiveDateTime := start_date.map startOfDay
  let end_datetime : Option NaiveDateTime := end_date.map endOfDay
  if (match start_datetime, end_datetime with
      | some s, some e => dtLtB e s
      | _, _ => false) then
    Except.error "start_date must be before or equal to end_date"
  else
    let t := extractGo start_datetime end_datetime photos
    Except.ok { records := t.1
                null_coord_count := t.2.1
                skipped_count := t.2.2.1
                date_filtered_count := t.2.2.2
                total_found := t.1.length }

/-- The CoordinateValidator operation of the design: the coordinate
validation logic inlined at lines 329-341 of `extract_locations` (and
repeated in the export helpers), as a predicate. -/
def isValid (lat lon : ℚ) : Bool :=
  decide (-90 ≤ lat ∧ lat ≤ 90) && decide (-180 ≤ lon ∧ lon ≤ 180) &&
    !(decide (lat = 0) && decide (lon = 0))

/-- A record whose coordinates are present and pass `isValid`. -/
def ValidRec (r : LocationRecord) : Prop :=
  ∃ lat lon, r.latitude = some lat ∧ r.longitude = some lon ∧
    isValid lat lon = true

/-- The inner loop of `deduplicate_locations`: is the current location
within `distance_meters` of some already kept location (locations without
coordinates in the kept list are skipped). -/
def isDupB (dist : ℚ → ℚ → ℚ → ℚ → ℚ) (distance_meters lat lon : ℚ)
    (deduplicated : List LocationRecord) : Bool :=
  deduplicated.any fun existing_loc =>
    match existing_loc.latitude, existing_loc.longitude with
    | some existing_lat, some existing_lon =>
      decide (dist lat lon existing_lat existing_lon ≤ distance_meters)
    | _, _ => false

/-- The loop of `deduplicate_locations`: `deduplicated` is the list built
so far; a location with a missing coordinate is skipped, a location within
`distance_meters` of an already kept one is dropped, all others are
appended. The function returns the part appended after `deduplicated`. -/
def dedupGo (dist : ℚ → ℚ → ℚ → ℚ → ℚ) (distance_meters : ℚ)
    (deduplicated : List LocationRecord) :
    List LocationRecord → List LocationRecord
  | [] => []
  | loc :: rest =>
    match loc.latitude, loc.longitude with
    | some lat, some lon =>
      if isDupB dist distance_meters lat lon deduplicated then
        dedupGo dist distance_meters deduplicated rest
      else loc :: dedupGo dist distance_meters (deduplicated ++ [loc]) rest
    | _, _ => dedupGo dist distance_meters deduplicated rest

/-- The method `deduplicate_locations(locations, distance_meters)`, parameterized over
the haversine distance function. -/
def deduplicate_locations (dist : ℚ → ℚ → ℚ → ℚ → ℚ)
    (locations : List LocationRecord) (distance_meters : ℚ) :
    List LocationRecord :=
  dedupGo dist distance_meters [] locations

/-- Greedy clustering written from the words of the specification: iterate
in input order, drop a record with a missing coordinate, compute the
distance to every already accepted record and keep the record exactly when
all those distances are strictly above the threshold (the minimum is not
below it). -/
def dedupSpecGo (dist : ℚ → ℚ → ℚ → ℚ → ℚ) (thresholdMeters : ℚ)
    (accepted : List LocationRecord) :
    List LocationRecord → List LocationRecord
  | [] => []
  | loc :: rest =>
    match loc.latitude, loc.longitude with
    | some lat, some lon =>
      let distances := accepted.map fun e =>
        dist lat lon (e.latitude.getD 0) (e.longitude.getD 0)
      if distances.all (fun d => decide (thresholdMeters < d)) then
        loc :: dedupSpecGo dist thresholdMeters (accepted ++ [loc]) rest
      else dedupSpecGo dist thresholdMeters accepted rest
    | _, _ => dedupSpecGo dist thresholdMeters accepted rest

/-- The deduplication operation as worded in the specification. -/
def dedupSpecWords (dist : ℚ → ℚ → ℚ → ℚ → ℚ) (thresholdMeters : ℚ)
    (records : List LocationRecord) : List LocationRecord :=
  dedupSpecGo dist thresholdMeters [] records

/-- The invariant `DedupedFrom dist t acc l`: every record of `l`, in order, has both
coordinates and is not within `t` of any record of `acc` or of any earlier
record of `l`. This is the invariant the dedup loop establishes. -/
def DedupedFrom (dist : ℚ → ℚ → ℚ → ℚ → ℚ) (t : ℚ) :
    List LocationRecord → List LocationRecord → Prop
  | _, [] => True
  | acc, loc :: rest =>
    (∃ lat lon, loc.latitude = some lat ∧ loc.longitude = some lon ∧
      isDupB dist t lat lon acc = false) ∧
    DedupedFrom dist t (acc ++ [loc]) rest

/-- The decoded JSON body of a Street View metadata response; each field is
`none` when the corresponding key is absent (`status` defaulting is applied
at the use site, as in the source). -/
structure MetadataResponse where
  status : Option String
  loc_lat : Option ℚ
  loc_lng : Option ℚ
  pano_id : Option String
deriving DecidableEq

/-- Outcome of the metadata HTTP request: one of the caught exceptions
(URLError, HTTPError, TimeoutError, JSONDecodeError, KeyError), or a
decoded response. -/
inductive LookupResult where
  | raised
  | response (data : MetadataResponse)
deriving DecidableEq

/-- The panorama-info dictionary returned by `_check_street_view_pano`. -/
structure PanoInfo where
  pano_lat : ℚ
  pano_lon : ℚ
  pano_id : String
  distance_m : ℚ
deriving DecidableEq

/-- The method `_check_street_view_pano(lat, lon, api_key, radius)`: the lookup
function parameter models the HTTP request (API key folded in). A raised
exception yields `none` (fail closed); a response with status `"OK"`
(default `"UNKNOWN_ERROR"`) and both location fields present yields the
panorama info with the haversine distance from the query point; anything
else yields `none`. -/
def check_street_view_pano (dist : ℚ → ℚ → ℚ → ℚ → ℚ)
    (lookup : ℚ → ℚ → Nat → LookupResult) (lat lon : ℚ) (radius : Nat) :
    Option PanoInfo :=
  match lookup lat lon radius with
  | .raised => none
  | .response data =>
    if data.status.getD "UNKNOWN_ERROR" = "OK" then
      match data.loc_lat, data.loc_lng with
      | some pano_lat, some pano_lon =>
        some { pano_lat := pano_lat
               pano_lon := pano_lon
               pano_id := data.pano_id.getD ""
               distance_m := dist lat lon pano_lat pano_lon }
      | _, _ => none
    else none

/-- The copied dictionary with the four panorama keys added, as built by
`filter_street_view_panos` for a kept location. -/
def panoAnnotate (loc : LocationRecord) (info : PanoInfo) : LocationRecord :=
  { loc with pano_lat := some info.pano_lat
             pano_lon := some info.pano_lon
             pano_distance_m := some info.distance_m
             pano_id := some info.pano_id }

/-- The loop of `filter_street_view_panos`: a location with a missing
coordinate, a failed or empty panorama check, or a panorama farther than
`max_distance_m` is dropped and counted; otherwise the annotated location
is kept. Returns (kept list, dropped count). -/
def filterSVGo (dist : ℚ → ℚ → ℚ → ℚ → ℚ)
    (lookup : ℚ → ℚ → Nat → LookupResult) (max_distance_m : ℚ) :
    List LocationRecord → List LocationRecord × Nat
  | [] => ([], 0)
  | loc :: rest =>
    let t := filterSVGo dist lookup max_distance_m rest
    match loc.latitude, loc.longitude with
    | some lat, some lon =>
      match check_street_view_pano dist lookup lat lon 50 with
      | none => (t.1, t.2 + 1)
      | some pano_info =>
        if pano_info.distance_m > max_distance_m then (t.1, t.2 + 1)
        else (panoAnnotate loc pano_info :: t.1, t.2)
    | _, _ => (t.1, t.2 + 1)

/-- The method `filter_street_view_panos(locations, api_key, max_distance_m)`,
parameterized over the distance function and the metadata lookup (which
carries the API key); the search radius passed to the check is 50. -/
def filter_street_view_panos (dist : ℚ → ℚ → ℚ → ℚ → ℚ)
    (lookup : ℚ → ℚ → Nat → LookupResult)
    (locations : List LocationRecord) (max_distance_m : ℚ) :
    List LocationRecord × Nat :=
  filterSVGo dist lookup max_distance_m locations

/-- A record with its panorama annotation removed: the core fields of the
record, used to state that panorama filtering only annotates. -/
def erasePano (r : LocationRecord) : LocationRecord :=
  { r with pano_lat := none, pano_lon := none,
           pano_distance_m := none, pano_id := none }

/-- Tag of a loop outcome, forgetting the built record: used to state that
the filtering decision for a photo does not depend on its timezone. -/
def outcomeTag : PhotoOutcome → Nat
  | .noLocation => 0
  | .nullCoord => 1
  | .zeroZero => 2
  | .dateFiltered => 3
  | .nonCamera => 4
  | .kept _ => 5

/-- A photo that the extraction loop counts in `null_coord_count`: it has a
location, but a coordinate is missing or out of range. A (0.0, 0.0) pair
passes this predicate check and is skipped without being counted. -/
def droppedNullCoordB (p : Photo) : Bool :=
  match p.location with
  | none => false
  | some (some lat, some lon) =>
    decide (¬(-90 ≤ lat ∧ lat ≤ 90) ∨ ¬(-180 ≤ lon ∧ lon ≤ 180))
  | some _ => true

/-- The kept record of an outcome, if any. -/
def keptRecord : PhotoOutcome → Option LocationRecord
  | .kept r => some r
  | _ => none

/-- Whether an outcome is the null-coordinate skip. -/
def isNullOutcome : PhotoOutcome → Bool
  | .nullCoord => true
  | _ => false

/-- Whether an outcome is the non-camera skip. -/
def isNonCameraOutcome : PhotoOutcome → Bool
  | .nonCamera => true
  | _ => false

/-- Whether an outcome is the date-filter skip. -/
def isDateFilteredOutcome : PhotoOutcome → Bool
  | .dateFiltered => true
  | _ => false

/-- The latitude 48.8566 as an explicit reduced fraction (the scientific
literal does not reduce in the kernel). -/
def parisLat : ℚ := Rat.mk' 244283 5000

/-- The longitude 2.3522 as an explicit reduced fraction. -/
def parisLon : ℚ := Rat.mk' 11761 5000

/-- A photo with camera EXIF data, a valid Paris coordinate, and an
explicit country, used as a concrete witness input. -/
def samplePhoto : Photo :=
  { uuid := "one"
    original_filename := some "IMG_0001.jpg"
    title := none
    description := none
    location := some (some parisLat, some parisLon)
    date := none
    ismovie := false
    favorite := false
    exif_info := some ⟨some "Apple", some "iPhone 12"⟩
    place := some (.withCountry (some "France")) }

/-- The record `extract_locations` builds for `samplePhoto`. -/
def sampleRec : LocationRecord := mkRecord samplePhoto parisLat parisLon

/-- The result of extracting `[samplePhoto]` with no date filter. -/
def sampleRes : ExtractResult :=
  { records := [sampleRec], null_coord_count := 0, skipped_count := 0
    date_filtered_count := 0, total_found := 1 }

/-- A photo located at (0.0, 0.0), otherwise extractable. -/
def zeroPhoto : Photo :=
  { samplePhoto with uuid := "zero", location := some (some 0, some 0) }

/-- A photo whose place metadata is only the comma-less name "Paris". -/
def parisPhoto : Photo :=
  { samplePhoto with uuid := "paris", place := some (.nameOnly (some "Paris")) }

/-- Photo kept by the January 2023 date filter (2023-01-31T23:00:00). -/
def datePhotoIn : Photo :=
  { samplePhoto with
    uuid := "in"
    date := some ⟨⟨⟨2023, 1, 31⟩, 23, 0, 0⟩, none⟩ }

/-- Photo excluded by the January 2023 date filter (2023-02-01T00:00:00). -/
def datePhotoOut : Photo :=
  { samplePhoto with
    uuid := "out"
    date := some ⟨⟨⟨2023, 2, 1⟩, 0, 0, 0⟩, none⟩ }

/-- Photo with no timestamp at all. -/
def datePhotoNone : Photo :=
  { samplePhoto with uuid := "nodate", date := none }

/-- The region-resolution rule as amended from the specification wording:
a present non-empty country field wins; otherwise, when the place has no
country attribute and carries a free-text name containing a comma, the
region is the whitespace-stripped last comma-separated segment unless that
segment is empty; in every other case the region is "Unknown". -/
def region_from_spec (place : Option PlaceInfo) : String :=
  match place with
  | some (.withCountry (some c)) => if c = "" then "Unknown" else c
  | some (.nameOnly (some nm)) =>
    if nm.data.contains ',' then
      let seg := ((splitComma nm).map pyStrip).getLastD ""
      if seg = "" then "Unknown" else seg
    else "Unknown"
  | _ => "Unknown"

/-! ### Helper lemmas -/

theorem extractGo_spec (sdt edt : Option NaiveDateTime) (photos : List Photo) :
    extractGo sdt edt photos =
      (photos.filterMap (fun p => keptRecord (classifyPhoto sdt edt p)),
       photos.countP (fun p => isNullOutcome (classifyPhoto sdt edt p)),
       photos.countP (fun p => isNonCameraOutcome (classifyPhoto sdt edt p)),
       photos.countP (fun p => isDateFilteredOutcome (classifyPhoto sdt edt p))) := by
  induction photos with
  | nil => rfl
  | cons p rest ih =>
    cases h : classifyPhoto sdt edt p <;>
      simp [extractGo, h, ih, keptRecord, isNullOutcome, isNonCameraOutcome,
        isDateFilteredOutcome, List.countP_cons]

theorem extract_locations_ok (sd ed : Option Date) (photos : List Photo)
    (res : ExtractResult) (h : extract_locations sd ed photos = .ok res) :
    res = { records := (extractGo (sd.map startOfDay) (ed.map endOfDay) photos).1
            null_coord_count := (extractGo (sd.map startOfDay) (ed.map endOfDay) photos).2.1
            skipped_count := (extractGo (sd.map startOfDay) (ed.map endOfDay) photos).2.2.1
            date_filtered_count := (extractGo (sd.map startOfDay) (ed.map endOfDay) photos).2.2.2
            total_found := (extractGo (sd.map startOfDay) (ed.map endOfDay) photos).1.length } := by
  simp only [extract_locations] at h
  split at h
  · exact absurd h (by simp)
  · exact ((Except.ok.injEq _ _).mp h).symm

theorem classify_kept_valid (sdt edt : Option NaiveDateTime) (p : Photo)
    (r : LocationRecord) (h : classifyPhoto sdt edt p = .kept r) :
    ∃ lat lon, r.latitude = some lat ∧ r.longitude = some lon ∧
      isValid lat lon = true := by
  unfold classifyPhoto at h
  rcases hp : p.location with _ | ⟨olat, olon⟩ <;> rw [hp] at h
  · simp at h
  rcases olat with _ | lat <;> rcases olon with _ | lon
  · simp at h
  · simp at h
  · simp at h
  simp only at h
  split at h
  · exact absurd h (by simp)
  next hrange =>
    split at h
    next hzero =>
      push_neg at hrange
      have hval : isValid lat lon = true := by
        simp only [isValid, Bool.and_eq_true, decide_eq_true_iff]
        refine ⟨⟨by simp [hrange.1.1, hrange.1.2], by simp [hrange.2.1, hrange.2.2]⟩, ?_⟩
        rcases hzero with h0 | h0 <;> simp [h0]
      have hr : r = mkRecord p lat lon := by
        rcases hd : p.date with _ | d <;> rw [hd] at h <;> simp only at h
        · split at h
          · exact absurd h (by simp)
          · split at h
            · exact absurd h (by simp)
            · exact ((PhotoOutcome.kept.injEq _ _).mp h).symm
        · split at h
          · exact absurd h (by simp)
          · split at h
            · exact absurd h (by simp)
            · split at h
              · exact absurd h (by simp)
              · exact ((PhotoOutcome.kept.injEq _ _).mp h).symm
      exact ⟨lat, lon, by rw [hr]; exact rfl, by rw [hr]; exact rfl, hval⟩
    · exact absurd h (by simp)

theorem dedupGo_sublist (dist : ℚ → ℚ → ℚ → ℚ → ℚ) (t : ℚ)
    (l : List LocationRecord) :
    ∀ acc, (dedupGo dist t acc l).Sublist l := by
  induction l with
  | nil => intro acc; simp [dedupGo]
  | cons loc rest ih =>
    intro acc
    rcases hlat : loc.latitude with _ | lat <;>
      rcases hlon : loc.longitude with _ | lon <;>
      simp only [dedupGo, hlat, hlon]
    · exact (ih acc).cons loc
    · exact (ih acc).cons loc
    · exact (ih acc).cons loc
    · split
      · exact (ih acc).cons loc
      · exact (ih (acc ++ [loc])).cons₂ loc

theorem dedupGo_mem_isSome (dist : ℚ → ℚ → ℚ → ℚ → ℚ) (t : ℚ)
    (l : List LocationRecord) :
    ∀ acc loc, loc ∈ dedupGo dist t acc l →
      loc.latitude.isSome ∧ loc.longitude.isSome := by
  induction l with
  | nil => intro acc loc hm; simp [dedupGo] at hm
  | cons x rest ih =>
    intro acc loc hm
    rcases hlat : x.latitude with _ | lat <;>
      rcases hlon : x.longitude with _ | lon <;>
      rw [dedupGo, hlat, hlon] at hm
    · exact ih acc loc hm
    · exact ih acc loc hm
    · exact ih acc loc hm
    · simp only at hm
      split at hm
      · exact ih acc loc hm
      · rcases List.mem_cons.mp hm with hx | hx
        · subst hx; simp [hlat, hlon]
        · exact ih (acc ++ [x]) loc hx

theorem dedupGo_deduped (dist : ℚ → ℚ → ℚ → ℚ → ℚ) (t : ℚ)
    (l : List LocationRecord) :
    ∀ acc, DedupedFrom dist t acc (dedupGo dist t acc l) := by
  induction l with
  | nil => intro acc; simp [dedupGo, DedupedFrom]
  | cons loc rest ih =>
    intro acc
    rcases hlat : loc.latitude with _ | lat <;>
      rcases hlon : loc.longitude with _ | lon <;>
      simp only [dedupGo, hlat, hlon]
    · exact ih acc
    · exact ih acc
    · exact ih acc
    · split
      · exact ih acc
      next hdup =>
        rw [DedupedFrom]
        exact ⟨⟨lat, lon, hlat, hlon, Bool.not_eq_true _ ▸ hdup⟩, ih (acc ++ [loc])⟩

theorem dedupGo_eq_of_deduped (dist : ℚ → ℚ → ℚ → ℚ → ℚ) (t : ℚ)
    (l : List LocationRecord) :
    ∀ acc, DedupedFrom dist t acc l → dedupGo dist t acc l = l := by
  induction l with
  | nil => intro acc _; rfl
  | cons loc rest ih =>
    intro acc hded
    rw [DedupedFrom] at hded
    obtain ⟨⟨lat, lon, hlat, hlon, hdup⟩, hrest⟩ := hded
    rw [dedupGo, hlat, hlon]
    simp only [hdup]
    rw [if_neg (by simp), ih (acc ++ [loc]) hrest]

theorem isDupB_eq_not_all (dist : ℚ → ℚ → ℚ → ℚ → ℚ) (t lat lon : ℚ)
    (acc : List LocationRecord)
    (hacc : ∀ e ∈ acc, e.latitude.isSome ∧ e.longitude.isSome) :
    isDupB dist t lat lon acc =
      !((acc.map fun e => dist lat lon (e.latitude.getD 0) (e.longitude.getD 0)).all
          fun d => decide (t < d)) := by
  induction acc with
  | nil => rfl
  | cons e rest ih =>
    have he := hacc e (List.mem_cons_self e rest)
    rcases hlat : e.latitude with _ | elat
    · rw [hlat] at he; simp at he
    rcases hlon : e.longitude with _ | elon
    · rw [hlon] at he; simp at he
    have ihr := ih fun x hx => hacc x (List.mem_cons_of_mem e hx)
    simp only [isDupB, List.any_cons, List.map_cons, List.all_cons, hlat, hlon,
      Option.getD_some] at *
    rw [ihr]
    by_cases hle : dist lat lon elat elon ≤ t
    · simp [hle, not_lt.mpr hle]
    · simp [hle, lt_of_not_ge hle]

theorem dedupGo_eq_specGo (dist : ℚ → ℚ → ℚ → ℚ → ℚ) (t : ℚ)
    (l : List LocationRecord) :
    ∀ acc, (∀ e ∈ acc, e.latitude.isSome ∧ e.longitude.isSome) →
      dedupGo dist t acc l = dedupSpecGo dist t acc l := by
  induction l with
  | nil => intro acc _; rfl
  | cons loc rest ih =>
    intro acc hacc
    rcases hlat : loc.latitude with _ | lat <;>
      rcases hlon : loc.longitude with _ | lon <;>
      simp only [dedupGo, dedupSpecGo, hlat, hlon]
    · exact ih acc hacc
    · exact ih acc hacc
    · exact ih acc hacc
    · rw [isDupB_eq_not_all dist t lat lon acc hacc]
      by_cases hall : ((acc.map fun e =>
          dist lat lon (e.latitude.getD 0) (e.longitude.getD 0)).all
            fun d => decide (t < d)) = true
      · rw [if_neg (by simp [hall]), if_pos hall]
        have : ∀ e ∈ acc ++ [loc], e.latitude.isSome ∧ e.longitude.isSome := by
          intro e he
          rcases List.mem_append.mp he with he | he
          · exact hacc e he
          · rcases List.mem_singleton.mp he with rfl
            simp [hlat, hlon]
        rw [ih (acc ++ [loc]) this]
      · rw [if_pos (by simp [Bool.not_eq_true _ ▸ hall]), if_neg hall]
        exact ih acc hacc

theorem filterSVGo_spec (dist : ℚ → ℚ → ℚ → ℚ → ℚ)
    (lookup : ℚ → ℚ → Nat → LookupResult) (m : ℚ)
    (locs : List LocationRecord) :
    (filterSVGo dist lookup m locs).1 =
      locs.filterMap (fun loc =>
        match loc.latitude, loc.longitude with
        | some lat, some lon =>
          match check_street_view_pano dist lookup lat lon 50 with
          | some info =>
            if info.distance_m > m then none else some (panoAnnotate loc info)
          | none => none
        | _, _ => none)
    ∧ (filterSVGo dist lookup m locs).2 + (filterSVGo dist lookup m locs).1.length
        = locs.length := by
  induction locs with
  | nil => exact ⟨rfl, rfl⟩
  | cons loc rest ih =>
    have h1 := ih.1
    have h2 := ih.2
    have hdropped :
        (filterSVGo dist lookup m rest).2 + 1 +
          (filterSVGo dist lookup m rest).1.length = rest.length + 1 := by omega
    rcases hlat : loc.latitude with _ | lat <;>
      rcases hlon : loc.longitude with _ | lon <;>
      simp only [filterSVGo, hlat, hlon, List.filterMap_cons, List.length_cons]
    · exact ⟨h1, hdropped⟩
    · exact ⟨h1, hdropped⟩
    · exact ⟨h1, hdropped⟩
    · rcases hchk : check_street_view_pano dist lookup lat lon 50 with _ | info <;>
        simp only
      · exact ⟨h1, hdropped⟩
      · split
        · exact ⟨h1, hdropped⟩
        · refine ⟨congrArg (List.cons (panoAnnotate loc info)) h1, ?_⟩
          show (filterSVGo dist lookup m rest).2 +
            (panoAnnotate loc info :: (filterSVGo dist lookup m rest).1).length
              = rest.length + 1
          simp only [List.length_cons]
          omega

theorem dtLtB_endOfDay_startOfDay (e s : Date) :
    dtLtB (endOfDay e) (startOfDay s) = dateLtB e s := by
  rw [dtLtB]
  cases h1 : dateLtB e s
  · cases h2 : dateLtB s e <;> simp [endOfDay, startOfDay, h1, h2]
  · simp [endOfDay, startOfDay, h1]

theorem parisLat_eq : (48.8566 : ℚ) = parisLat := by
  rw [parisLat, Rat.mk'_eq_divInt]; norm_num [Rat.divInt_eq_div]

theorem parisLon_eq : (2.3522 : ℚ) = parisLon := by
  rw [parisLon, Rat.mk'_eq_divInt]; norm_num [Rat.divInt_eq_div]

theorem extract_surviving_valid (sd ed : Option Date) (photos : List Photo)
    (res : ExtractResult) (h : extract_locations sd ed photos = .ok res) :
    ∀ r ∈ res.records, ValidRec r := by
  intro r hmem
  have hres := extract_locations_ok sd ed photos res h
  subst hres
  have hmem2 : r ∈ (extractGo (sd.map startOfDay) (ed.map endOfDay) photos).1 := hmem
  have hs := congrArg Prod.fst
    (extractGo_spec (sd.map startOfDay) (ed.map endOfDay) photos)
  rw [hs] at hmem2
  have hmem3 : r ∈ photos.filterMap
      (fun p => keptRecord (classifyPhoto (sd.map startOfDay) (ed.map endOfDay) p)) :=
    hmem2
  obtain ⟨p, _, hkept⟩ := List.mem_filterMap.mp hmem3
  cases ho : classifyPhoto (sd.map startOfDay) (ed.map endOfDay) p <;>
    rw [ho] at hkept <;> simp only [keptRecord, Option.some.injEq,
      reduceCtorEq] at hkept
  next r2 =>
    subst hkept
    exact classify_kept_valid _ _ p r2 ho

/-! ### Claim theorems -/

/-- C1: for every source and every valid date-range configuration, the
extraction yields the surviving records in source iteration order (the
record list is the element-wise filter-map of the photo list) together
with the counters nullCoordinates, skippedNonCamera, dateFiltered and
totalFound, each counting the records dropped for that reason (totalFound
being the number of surviving records). -/
theorem extract_locations_records_and_counters (sd ed : Option Date)
    (photos : List Photo) (res : ExtractResult)
    (h : extract_locations sd ed photos = .ok res) :
    res.records = photos.filterMap
      (fun p => keptRecord (classifyPhoto (sd.map startOfDay) (ed.map endOfDay) p))
    ∧ res.null_coord_count = photos.countP
      (fun p => isNullOutcome (classifyPhoto (sd.map startOfDay) (ed.map endOfDay) p))
    ∧ res.skipped_count = photos.countP
      (fun p => isNonCameraOutcome (classifyPhoto (sd.map startOfDay) (ed.map endOfDay) p))
    ∧ res.date_filtered_count = photos.countP
      (fun p => isDateFilteredOutcome (classifyPhoto (sd.map startOfDay) (ed.map endOfDay) p))
    ∧ res.total_found = res.records.length := by
  have hres := extract_locations_ok sd ed photos res h
  subst hres
  have hs := extractGo_spec (sd.map startOfDay) (ed.map endOfDay) photos
  refine ⟨?_, ?_, ?_, ?_, rfl⟩ <;> rw [hs]

/-- Witness for C1 at a concrete photo library. -/
theorem extract_locations_records_and_counters_witness :
    sampleRes.records = [samplePhoto].filterMap
      (fun p => keptRecord (classifyPhoto ((none : Option Date).map startOfDay)
        ((none : Option Date).map endOfDay) p))
    ∧ sampleRes.null_coord_count = [samplePhoto].countP
      (fun p => isNullOutcome (classifyPhoto ((none : Option Date).map startOfDay)
        ((none : Option Date).map endOfDay) p))
    ∧ sampleRes.skipped_count = [samplePhoto].countP
      (fun p => isNonCameraOutcome (classifyPhoto ((none : Option Date).map startOfDay)
        ((none : Option Date).map endOfDay) p))
    ∧ sampleRes.date_filtered_count = [samplePhoto].countP
      (fun p => isDateFilteredOutcome (classifyPhoto ((none : Option Date).map startOfDay)
        ((none : Option Date).map endOfDay) p))
    ∧ sampleRes.total_found = sampleRes.records.length :=
  extract_locations_records_and_counters none none [samplePhoto] sampleRes rfl

/-- C2: coordinate validity is exactly the conjunction of the range checks
with the (0,0) exclusion; it rejects (0,0), latitude 91 and longitude 181,
accepts (48.8566, 2.3522), and every record surviving extraction carries
coordinates satisfying it. -/
theorem isValid_characterization_and_survivors :
    isValid 0 0 = false
    ∧ (∀ lon, isValid 91 lon = false)
    ∧ (∀ lat, isValid lat 181 = false)
    ∧ isValid 48.8566 2.3522 = true
    ∧ (∀ lat lon, isValid lat lon = true ↔
        (-90 ≤ lat ∧ lat ≤ 90 ∧ -180 ≤ lon ∧ lon ≤ 180 ∧ ¬(lat = 0 ∧ lon = 0)))
    ∧ (∀ sd ed photos res r, extract_locations sd ed photos = .ok res →
        r ∈ res.records →
        ∃ lat lon, r.latitude = some lat ∧ r.longitude = some lon ∧
          isValid lat lon = true) := by
  refine ⟨rfl, ?_, ?_, ?_, ?_, ?_⟩
  · intro lon
    simp only [isValid,
      show decide ((-90 : ℚ) ≤ 91 ∧ (91 : ℚ) ≤ 90) = false by decide]
    simp
  · intro lat
    simp only [isValid,
      show decide ((-180 : ℚ) ≤ 181 ∧ (181 : ℚ) ≤ 180) = false by decide]
    simp
  · rw [parisLat_eq, parisLon_eq]
    rfl
  · intro lat lon
    simp only [isValid, Bool.and_eq_true, Bool.not_eq_true', Bool.and_eq_false_iff,
      decide_eq_true_iff, decide_eq_false_iff_not]
    constructor
    · rintro ⟨⟨⟨h1, h2⟩, h3, h4⟩, h5⟩
      refine ⟨h1, h2, h3, h4, ?_⟩
      rintro ⟨rfl, rfl⟩
      rcases h5 with h5 | h5 <;> simp at h5
    · rintro ⟨h1, h2, h3, h4, h5⟩
      refine ⟨⟨⟨h1, h2⟩, h3, h4⟩, ?_⟩
      by_cases hz : lat = 0
      · right; intro hl; exact h5 ⟨hz, hl⟩
      · left; exact hz
  · intro sd ed photos res r h hmem
    exact extract_surviving_valid sd ed photos res h r hmem

/-- Witness for C2 at a concrete surviving record. -/
theorem isValid_characterization_and_survivors_witness :
    ∃ lat lon, sampleRec.latitude = some lat ∧ sampleRec.longitude = some lon ∧
      isValid lat lon = true :=
  isValid_characterization_and_survivors.2.2.2.2.2 none none [samplePhoto]
    sampleRes sampleRec rfl (List.mem_singleton.mpr rfl)

/-- C3: the panorama filter keeps exactly the records whose coverage check
succeeds with a panorama within the distance bound, annotated with the
panorama coordinates, id and distance, in input order; the returned count
accounts for every dropped record; a raised lookup exception or a non-OK
status yields no coverage (fail closed); and the annotated distance is the
haversine distance from the record to the coverage point. -/
theorem pano_filter_fail_closed (dist : ℚ → ℚ → ℚ → ℚ → ℚ)
    (lookup : ℚ → ℚ → Nat → LookupResult) (max_distance_m : ℚ)
    (locations : List LocationRecord) :
    (filter_street_view_panos dist lookup locations max_distance_m).1 =
      locations.filterMap (fun loc =>
        match loc.latitude, loc.longitude with
        | some lat, some lon =>
          match check_street_view_pano dist lookup lat lon 50 with
          | some info =>
            if info.distance_m > max_distance_m then none
            else some (panoAnnotate loc info)
          | none => none
        | _, _ => none)
    ∧ (filter_street_view_panos dist lookup locations max_distance_m).2 +
        (filter_street_view_panos dist lookup locations max_distance_m).1.length =
        locations.length
    ∧ (∀ lat lon radius, lookup lat lon radius = .raised →
        check_street_view_pano dist lookup lat lon radius = none)
    ∧ (∀ lat lon radius data, lookup lat lon radius = .response data →
        data.status.getD "UNKNOWN_ERROR" ≠ "OK" →
        check_street_view_pano dist lookup lat lon radius = none)
    ∧ (∀ lat lon radius info,
        check_street_view_pano dist lookup lat lon radius = some info →
        info.distance_m = dist lat lon info.pano_lat info.pano_lon) := by
  refine ⟨(filterSVGo_spec dist lookup max_distance_m locations).1,
    (filterSVGo_spec dist lookup max_distance_m locations).2, ?_, ?_, ?_⟩
  · intro lat lon radius hr
    unfold check_street_view_pano
    rw [hr]
  · intro lat lon radius data hr hstatus
    unfold check_street_view_pano
    rw [hr]
    simp [hstatus]
  · intro lat lon radius info h
    unfold check_street_view_pano at h
    split at h
    · exact absurd h (by simp)
    · split at h
      · split at h
        · obtain rfl := Option.some.inj h
          rfl
        · exact absurd h (by simp)
      · exact absurd h (by simp)

/-- Witness for C3: a lookup that raises is treated as no coverage. -/
theorem pano_filter_fail_closed_witness :
    check_street_view_pano (fun _ _ _ _ => 0) (fun _ _ _ => .raised) 1 2 50 = none :=
  (pano_filter_fail_closed (fun _ _ _ _ => 0) (fun _ _ _ => .raised) 40 []).2.2.1
    1 2 50 rfl

/-- C4: deduplication follows the greedy clustering of the specification
(keep a record iff its distance to every already-kept record is strictly
above the threshold), drops records with a missing coordinate
unconditionally, keeps a subsequence of the input (first-occurrence-wins,
order preserved), and on two records 30 m apart drops the second at
threshold 200 and keeps both at threshold 10. -/
theorem dedup_greedy_threshold (dist : ℚ → ℚ → ℚ → ℚ → ℚ) (t : ℚ)
    (ht : 0 ≤ t) (locs : List LocationRecord) (r1 r2 : LocationRecord)
    (lat1 lon1 lat2 lon2 : ℚ)
    (h1a : r1.latitude = some lat1) (h1b : r1.longitude = some lon1)
    (h2a : r2.latitude = some lat2) (h2b : r2.longitude = some lon2)
    (hd : dist lat2 lon2 lat1 lon1 = 30) :
    deduplicate_locations dist locs t = dedupSpecWords dist t locs
    ∧ (deduplicate_locations dist locs t).Sublist locs
    ∧ (∀ loc ∈ deduplicate_locations dist locs t,
        loc.latitude.isSome ∧ loc.longitude.isSome)
    ∧ deduplicate_locations dist [r1, r2] 200 = [r1]
    ∧ deduplicate_locations dist [r1, r2] 10 = [r1, r2] := by
  refine ⟨dedupGo_eq_specGo dist t locs [] (by simp),
    dedupGo_sublist dist t locs [],
    fun loc hm => dedupGo_mem_isSome dist t locs [] loc hm, ?_, ?_⟩
  · simp only [deduplicate_locations, dedupGo, isDupB, h1a, h1b, h2a, h2b, hd]
    simp +decide [h1a, h1b, hd]
  · simp only [deduplicate_locations, dedupGo, isDupB, h1a, h1b, h2a, h2b, hd]
    simp +decide [h1a, h1b, hd]

/-- Witness for C4 at two concrete records a constant 30 m apart. -/
theorem dedup_greedy_threshold_witness :
    deduplicate_locations (fun _ _ _ _ => 30) [] 200 = dedupSpecWords (fun _ _ _ _ => 30) 200 []
    ∧ (deduplicate_locations (fun _ _ _ _ => 30) [] 200).Sublist []
    ∧ (∀ loc ∈ deduplicate_locations (fun _ _ _ _ => 30) [] 200,
        loc.latitude.isSome ∧ loc.longitude.isSome)
    ∧ deduplicate_locations (fun _ _ _ _ => 30) [sampleRec, sampleRec] 200 = [sampleRec]
    ∧ deduplicate_locations (fun _ _ _ _ => 30) [sampleRec, sampleRec] 10
        = [sampleRec, sampleRec] :=
  dedup_greedy_threshold (fun _ _ _ _ => 30) 200 (by norm_num) [] sampleRec sampleRec
    parisLat parisLon parisLat parisLon rfl rfl rfl rfl rfl

/-- C9: deduplication is idempotent for every distance function, record
list and threshold. -/
theorem dedup_idempotent (dist : ℚ → ℚ → ℚ → ℚ → ℚ) (t : ℚ) (ht : 0 ≤ t)
    (S : List LocationRecord) :
    deduplicate_locations dist (deduplicate_locations dist S t) t =
      deduplicate_locations dist S t :=
  dedupGo_eq_of_deduped dist t _ [] (dedupGo_deduped dist t S [])

/-- Witness for C9 at a concrete list and threshold. -/
theorem dedup_idempotent_witness :
    deduplicate_locations (fun _ _ _ _ => 30)
      (deduplicate_locations (fun _ _ _ _ => 30) [sampleRec, sampleRec] 200) 200 =
    deduplicate_locations (fun _ _ _ _ => 30) [sampleRec, sampleRec] 200 :=
  dedup_idempotent (fun _ _ _ _ => 30) 200 (by norm_num) [sampleRec, sampleRec]

/-- C5: with the filter 2023-01-01 .. 2023-01-31, a record timestamped
2023-01-31T23:00:00 survives while 2023-02-01T00:00:00 and a record with
no timestamp are counted as date-filtered; and the filtering decision for
a photo is invariant under its timezone annotation, because timestamps are
normalized to naive form before any comparison. -/
theorem date_filter_end_of_day :
    (extract_locations (some ⟨2023, 1, 1⟩) (some ⟨2023, 1, 31⟩)
        [datePhotoIn, datePhotoOut, datePhotoNone]).map
      (fun r => (r.records.map LocationRecord.uuid, r.date_filtered_count)) =
      .ok (["in"], 2)
    ∧ (∀ (sdt edt : Option NaiveDateTime) (p : Photo) (nv : NaiveDateTime)
        (off : Int),
        outcomeTag (classifyPhoto sdt edt { p with date := some ⟨nv, some off⟩ }) =
        outcomeTag (classifyPhoto sdt edt { p with date := some ⟨nv, none⟩ })) := by
  refine ⟨rfl, ?_⟩
  intro sdt edt p nv off
  obtain ⟨u, ofn, ti, de, loc, da, mo, fa, ex, pl⟩ := p
  rcases loc with _ | ⟨olat, olon⟩
  · rfl
  rcases olat with _ | lat <;> rcases olon with _ | lon
  · rfl
  · rfl
  · rfl
  by_cases hc1 : ¬(-90 ≤ lat ∧ lat ≤ 90) ∨ ¬(-180 ≤ lon ∧ lon ≤ 180)
  · simp only [classifyPhoto, outcomeTag, hc1, if_true]
  by_cases hc2 : lat ≠ 0 ∨ lon ≠ 0
  case neg =>
    simp only [classifyPhoto, outcomeTag, hc1, hc2, if_true, if_false]
  by_cases hc3 : (match sdt with | some s => dtLtB nv s | none => false) = true
  · simp only [classifyPhoto, outcomeTag, hc1, hc2, hc3, if_true, if_false]
  by_cases hc4 : (match edt with | some e => dtLtB e nv | none => false) = true
  · simp only [classifyPhoto, outcomeTag, hc1, hc2, hc3, hc4, if_true, if_false]
  by_cases hc5 : is_valid_camera_media ⟨u, ofn, ti, de, some (some lat, some lon),
      some ⟨nv, some off⟩, mo, fa, ex, pl⟩ = true
  · have hc5b : is_valid_camera_media ⟨u, ofn, ti, de, some (some lat, some lon),
        some ⟨nv, none⟩, mo, fa, ex, pl⟩ = true := hc5
    simp only [classifyPhoto, outcomeTag, hc1, hc2, hc3, hc4, hc5, hc5b,
      not_true, not_false_eq_true, Bool.false_eq_true, if_true, if_false]
  · have hc5b : ¬ is_valid_camera_media ⟨u, ofn, ti, de, some (some lat, some lon),
        some ⟨nv, none⟩, mo, fa, ex, pl⟩ = true := hc5
    simp only [classifyPhoto, outcomeTag, hc1, hc2, hc3, hc4, hc5, hc5b,
      not_true, not_false_eq_true, Bool.false_eq_true, if_true, if_false]

/-- C6: extraction fails (with the invalid-range error) exactly when both
dates are supplied and the start date is strictly after the end date. -/
theorem invalid_range_error (sd ed : Option Date) (photos : List Photo) :
    (∃ msg, extract_locations sd ed photos = .error msg) ↔
    (∃ s e, sd = some s ∧ ed = some e ∧ dateLtB e s = true) := by
  rcases sd with _ | s <;> rcases ed with _ | e
  · simp [extract_locations]
  · simp [extract_locations]
  · simp [extract_locations]
  · cases h : dateLtB e s
    · simp [extract_locations, dtLtB_endOfDay_startOfDay, h]
    · simp [extract_locations, dtLtB_endOfDay_startOfDay, h]

theorem countP_funext {α : Type} (p q : α → Bool) (h : ∀ a, p a = q a)
    (l : List α) : l.countP p = l.countP q := by
  induction l with
  | nil => rfl
  | cons a l ih => simp [List.countP_cons, h a, ih]

theorem classify_null_eq_dropped (sdt edt : Option NaiveDateTime) (p : Photo) :
    isNullOutcome (classifyPhoto sdt edt p) = droppedNullCoordB p := by
  obtain ⟨u, ofn, ti, de, loc, da, mo, fa, ex, pl⟩ := p
  rcases loc with _ | ⟨olat, olon⟩
  · rfl
  rcases olat with _ | lat <;> rcases olon with _ | lon
  · rfl
  · rfl
  · rfl
  by_cases hc1 : ¬(-90 ≤ lat ∧ lat ≤ 90) ∨ ¬(-180 ≤ lon ∧ lon ≤ 180)
  · simp only [classifyPhoto, droppedNullCoordB, isNullOutcome, hc1, if_true,
      decide_True]
  by_cases hc2 : lat ≠ 0 ∨ lon ≠ 0
  case neg =>
    simp only [classifyPhoto, droppedNullCoordB, isNullOutcome, hc1, hc2,
      if_true, if_false, decide_False]
  rcases da with _ | d
  · by_cases hc3 : (Option.isSome sdt || Option.isSome edt) = true
    · simp only [classifyPhoto, droppedNullCoordB, isNullOutcome, hc1, hc2, hc3, Bool.false_eq_true,
        if_true, if_false, decide_False]
    · by_cases hc5 : is_valid_camera_media
          ⟨u, ofn, ti, de, some (some lat, some lon), none, mo, fa, ex, pl⟩ = true
      · simp only [classifyPhoto, droppedNullCoordB, isNullOutcome, hc1, hc2,
          hc3, hc5, not_true, not_false_eq_true, Bool.false_eq_true,
          if_true, if_false, decide_False]
      · simp only [classifyPhoto, droppedNullCoordB, isNullOutcome, hc1, hc2,
          hc3, hc5, not_true, not_false_eq_true, Bool.false_eq_true,
          if_true, if_false, decide_False]
  · by_cases hc3 : (match sdt with | some s => dtLtB d.naive s | none => false) = true
    · simp only [classifyPhoto, droppedNullCoordB, isNullOutcome, hc1, hc2, hc3, Bool.false_eq_true,
        if_true, if_false, decide_False]
    · by_cases hc4 : (match edt with | some e => dtLtB e d.naive | none => false) = true
      · simp only [classifyPhoto, droppedNullCoordB, isNullOutcome, hc1, hc2,
          hc3, hc4, Bool.false_eq_true, if_true, if_false, decide_False]
      · by_cases hc5 : is_valid_camera_media
            ⟨u, ofn, ti, de, some (some lat, some lon), some d, mo, fa, ex, pl⟩ = true
        · simp only [classifyPhoto, droppedNullCoordB, isNullOutcome, hc1, hc2,
            hc3, hc4, hc5, not_true, not_false_eq_true, Bool.false_eq_true,
            if_true, if_false, decide_False]
        · simp only [classifyPhoto, droppedNullCoordB, isNullOutcome, hc1, hc2,
            hc3, hc4, hc5, not_true, not_false_eq_true, Bool.false_eq_true,
            if_true, if_false, decide_False]

/-- C7 counterexample: a photo located at exactly (0.0, 0.0) is dropped by
extraction without incrementing `nullCoordinates` (or any other counter),
contradicting the claim that it increments `nullCoordinates` by one. -/
theorem zero_zero_not_counted_counterexample :
    (extract_locations none none [zeroPhoto]).map
      (fun r => (r.null_coord_count, r.skipped_count, r.date_filtered_count,
        r.records.length)) = .ok (0, 0, 0, 0) := by rfl

/-- C7 amended: the `nullCoordinates` counter counts exactly the records
with a location whose coordinate is absent or out of range; a (0.0, 0.0)
pair is skipped silently, counted nowhere. -/
theorem null_coordinates_counter_amended (sd ed : Option Date)
    (photos : List Photo) (res : ExtractResult)
    (h : extract_locations sd ed photos = .ok res) :
    res.null_coord_count = photos.countP droppedNullCoordB := by
  have hres := extract_locations_ok sd ed photos res h
  subst hres
  show (extractGo (sd.map startOfDay) (ed.map endOfDay) photos).2.1 = _
  rw [extractGo_spec]
  exact countP_funext _ _
    (fun p => classify_null_eq_dropped (sd.map startOfDay) (ed.map endOfDay) p)
    photos

/-- Witness for the amended C7. -/
theorem null_coordinates_counter_amended_witness :
    (⟨[], 0, 0, 0, 0⟩ : ExtractResult).null_coord_count =
      [zeroPhoto].countP droppedNullCoordB :=
  null_coordinates_counter_amended none none [zeroPhoto] ⟨[], 0, 0, 0, 0⟩ rfl

theorem filterSV_erase_sublist (dist : ℚ → ℚ → ℚ → ℚ → ℚ)
    (lookup : ℚ → ℚ → Nat → LookupResult) (m : ℚ)
    (locs : List LocationRecord) :
    ((filter_street_view_panos dist lookup locs m).1.map erasePano).Sublist
      (locs.map erasePano) := by
  show ((filterSVGo dist lookup m locs).1.map erasePano).Sublist _
  rw [(filterSVGo_spec dist lookup m locs).1]
  induction locs with
  | nil => simp
  | cons loc rest ih =>
    simp only [List.filterMap_cons, List.map_cons]
    rcases hlat : loc.latitude with _ | lat <;>
      rcases hlon : loc.longitude with _ | lon <;> simp only
    · exact ih.cons _
    · exact ih.cons _
    · exact ih.cons _
    · rcases hchk : check_street_view_pano dist lookup lat lon 50 with _ | info <;>
        simp only [hchk]
      · exact ih.cons _
      · by_cases hdist : info.distance_m > m
        · simp only [if_pos hdist]
          exact ih.cons _
        · simp only [if_neg hdist, List.map_cons]
          exact List.Sublist.cons₂ _ ih

theorem filterSV_mem_valid (dist : ℚ → ℚ → ℚ → ℚ → ℚ)
    (lookup : ℚ → ℚ → Nat → LookupResult) (m : ℚ)
    (locs : List LocationRecord)
    (hval : ∀ loc ∈ locs, ValidRec loc) :
    ∀ loc ∈ (filter_street_view_panos dist lookup locs m).1, ValidRec loc := by
  intro loc hm
  have hm2 : loc ∈ (filterSVGo dist lookup m locs).1 := hm
  rw [(filterSVGo_spec dist lookup m locs).1] at hm2
  obtain ⟨a, ha, hf⟩ := List.mem_filterMap.mp hm2
  rcases hlat : a.latitude with _ | lat <;> rw [hlat] at hf
  · simp at hf
  rcases hlon : a.longitude with _ | lon <;> rw [hlon] at hf
  · simp at hf
  simp only at hf
  rcases hchk : check_street_view_pano dist lookup lat lon 50 with _ | info <;>
    rw [hchk] at hf
  · simp at hf
  simp only at hf
  split at hf
  · simp at hf
  obtain rfl := Option.some.inj hf
  obtain ⟨la, lo, hla, hlo, hv⟩ := hval a ha
  exact ⟨la, lo, hla, hlo, hv⟩

/-- C8: each downstream pipeline stage only filters: deduplication returns
a subsequence of its input, panorama filtering returns records whose cores
(panorama annotation removed) form a subsequence of the input cores, both
stages preserve coordinate validity of all surviving records, and
extraction establishes validity for every record it emits. -/
theorem pipeline_subset_validity :
    (∀ (dist : ℚ → ℚ → ℚ → ℚ → ℚ) (t : ℚ) (locs : List LocationRecord),
      (deduplicate_locations dist locs t).Sublist locs)
    ∧ (∀ (dist : ℚ → ℚ → ℚ → ℚ → ℚ) (lookup : ℚ → ℚ → Nat → LookupResult)
        (m : ℚ) (locs : List LocationRecord),
        ((filter_street_view_panos dist lookup locs m).1.map erasePano).Sublist
          (locs.map erasePano))
    ∧ (∀ (dist : ℚ → ℚ → ℚ → ℚ → ℚ) (t : ℚ) (locs : List LocationRecord),
        (∀ loc ∈ locs, ValidRec loc) →
        ∀ loc ∈ deduplicate_locations dist locs t, ValidRec loc)
    ∧ (∀ (dist : ℚ → ℚ → ℚ → ℚ → ℚ) (lookup : ℚ → ℚ → Nat → LookupResult)
        (m : ℚ) (locs : List LocationRecord),
        (∀ loc ∈ locs, ValidRec loc) →
        ∀ loc ∈ (filter_street_view_panos dist lookup locs m).1, ValidRec loc)
    ∧ (∀ (sd ed : Option Date) (photos : List Photo) (res : ExtractResult),
        extract_locations sd ed photos = .ok res →
        ∀ r ∈ res.records, ValidRec r) := by
  refine ⟨fun dist t locs => dedupGo_sublist dist t locs [],
    filterSV_erase_sublist, ?_, filterSV_mem_valid, extract_surviving_valid⟩
  intro dist t locs hval loc hm
  exact hval loc ((dedupGo_sublist dist t locs []).subset hm)

/-- Witness for C8 at a concrete record list and extraction. -/
theorem pipeline_subset_validity_witness : ValidRec sampleRec :=
  pipeline_subset_validity.2.2.2.2 none none [samplePhoto] sampleRes rfl
    sampleRec (List.mem_singleton.mpr rfl)

/-- C10 counterexample: for a surviving record whose place metadata is
only the comma-less free-text name "Paris", the code resolves the region
to "Unknown", not to the last comma-separated segment of the name, which
is "Paris" itself. -/
theorem region_no_comma_counterexample :
    (extract_locations none none [parisPhoto]).map
      (fun r => r.records.map LocationRecord.region) = .ok ["Unknown"]
    ∧ ((splitComma "Paris").map pyStrip).getLastD "" = "Paris"
    ∧ ("Unknown" : String) ≠ "Paris" := ⟨rfl, rfl, by decide⟩

/-- C10 amended: the region is the explicit country field when present and
non-empty; otherwise, when the place has no country attribute and its
free-text name contains a comma, the stripped last comma-separated segment
unless that segment is empty; in every other case (including a comma-less
name) it is "Unknown". -/
theorem region_resolution_amended :
    ∀ place, resolve_region place = region_from_spec place := by
  intro place
  rcases place with _ | p
  · rfl
  rcases p with c | nm | _
  · rcases c with _ | c
    · rfl
    · rfl
  · rcases nm with _ | nm
    · rfl
    · by_cases hcomma : nm.data.contains ',' = true
      · simp only [resolve_region, region_from_spec, hcomma, if_true]
      · simp only [resolve_region, region_from_spec, hcomma, Bool.false_eq_true,
          if_false]
  · rfl

end GeoMemo
